import Mathlib

/-
Verification development for the waem utility-billing repository
(src/lib.rs, src/server.rs).

Embedding conventions:
* Rust `f64` values are modelled as `ℚ`.  The repository only performs
  addition, subtraction, multiplication, comparison, `max`, and
  `f64::round` on its numeric data, all of which are exact on the
  rationals; `f64::round` (round half away from zero) is modelled by
  `rustRoundZ` / `rustRound` below.
* Rust strings are modelled as Lean `String`; the string algorithms of
  the source (`contains`, `replace`, `trim`, `split`) are re-implemented
  structurally over `List Char` so that concrete instances evaluate in
  the kernel.  Rust `str::trim` / `char::to_lowercase` are modelled by
  ASCII whitespace trimming / ASCII lowercasing, which agree with the
  source on every string the repository manipulates (Chinese labels and
  ASCII decorations).
* File and spreadsheet I/O is out of scope: `read_csv_file` is modelled
  on the list of its text lines (`read_csv_lines`), `read_excel_file` on
  the list of its cell rows (`read_excel_rows`).
* The in-memory docx tree built by `generate_word_document_with_template`
  is modelled as a list of document elements (`DocElem`); table cell
  formatting and merge attributes are presentational and are recorded by
  keeping the rendered record inside the element.
-/

/-! ## List-of-characters string primitives -/

/-- Boolean prefix test on character lists. -/
def isPrefixList : List Char → List Char → Bool
  | [], _ => true
  | _ :: _, [] => false
  | p :: ps, c :: cs => p = c && isPrefixList ps cs

/-- Find the first occurrence of `pat`: returns the characters before the
occurrence and the characters after it. -/
def findSplit (pat : List Char) : List Char → Option (List Char × List Char)
  | [] => if pat.isEmpty then some ([], []) else none
  | c :: rest =>
    if isPrefixList pat (c :: rest) then some ([], (c :: rest).drop pat.length)
    else
      match findSplit pat rest with
      | some (pre, post) => some (c :: pre, post)
      | none => none

/-- Substring containment, as Rust `str::contains` with a string pattern. -/
def containsList (pat s : List Char) : Bool := (findSplit pat s).isSome

/-- Fuelled replace-all; the fuel only bounds the recursion and
`replaceAll` supplies enough of it for every occurrence. -/
def replaceAllFuel (pat rep : List Char) : Nat → List Char → List Char
  | 0, s => s
  | fuel+1, s =>
    match findSplit pat s with
    | none => s
    | some (pre, post) => pre ++ rep ++ replaceAllFuel pat rep fuel post

/-- Rust `str::replace`: replace every non-overlapping occurrence of `pat`
by `rep`, scanning left to right. -/
def replaceAll (pat rep s : List Char) : List Char := replaceAllFuel pat rep (s.length + 1) s

/-- Suffix test (Rust `str::ends_with`). -/
def endsWithList (pat s : List Char) : Bool := isPrefixList pat.reverse s.reverse

/-- Substring containment on `String` in the argument order of Rust
`h.contains(pat)`. -/
def strContainsStr (h pat : String) : Bool := containsList pat.data h.data

/-- Rust `str::trim` (whitespace stripped from both ends). -/
def trimChars (cs : List Char) : List Char :=
  ((cs.dropWhile Char.isWhitespace).reverse.dropWhile Char.isWhitespace).reverse

/-- `trim` on `String`. -/
def trimStr (s : String) : String := String.mk (trimChars s.data)

/-- Rust `line.split(',')`: split at every comma, keeping empty pieces. -/
def splitCommaAux : List Char → List Char → List String
  | [], acc => [String.mk acc.reverse]
  | c :: rest, acc =>
    if c = ',' then String.mk acc.reverse :: splitCommaAux rest []
    else splitCommaAux rest (c :: acc)

/-- Rust `line.split(',')` on a `String`. -/
def splitComma (s : String) : List String := splitCommaAux s.data []

/-- src/lib.rs `normalize`: `s.trim().to_lowercase()` (the source name
collides with a Mathlib root declaration, hence the suffix). -/
def normalizeLabel (s : String) : String := String.mk ((trimChars s.data).map Char.toLower)

/-! ## Rounding (`f64::round`, half away from zero) -/

/-- Rust `f64::round() as i64`: round half away from zero, as an integer. -/
def rustRoundZ (q : ℚ) : ℤ := if q < 0 then -(Int.floor (-q + 1/2)) else Int.floor (q + 1/2)

/-- Rust `f64::round()`: round half away from zero, back into the numeric
domain. -/
def rustRound (q : ℚ) : ℚ := ((rustRoundZ q : ℤ) : ℚ)

/-! ## Data model (src/lib.rs) -/

/-- src/lib.rs `ElectricityMeter`. -/
structure ElectricityMeter where
  meter_id : String
  prev_reading : ℚ
  curr_reading : ℚ
  usage : ℚ
  amount : ℚ

/-- src/lib.rs `MerchantBill`.  The `month` label is stamped from the wall
clock at construction time in the source; the clock is environmental, so
`MerchantBill.new` leaves it empty (no claim concerns `month`). -/
structure MerchantBill where
  merchant_name : String
  shop_code : String
  water_unit_price : ℚ
  electricity_unit_price : ℚ
  prev_water_reading : ℚ
  curr_water_reading : ℚ
  water_usage : ℚ
  water_amount : ℚ
  electricity_meters : List ElectricityMeter
  electricity_usage : ℚ
  electricity_amount : ℚ
  water_electricity_labor_fee : ℚ
  garbage_disposal_fee : ℚ
  meter_reader : Option String
  meter_date : Option String
  total_fee : ℚ
  month : String

/-- src/lib.rs `MerchantBill::new`. -/
def MerchantBill.new (merchant_name : String) (water_unit_price electricity_unit_price : ℚ) :
    MerchantBill where
  merchant_name := merchant_name
  shop_code := ""
  water_unit_price := water_unit_price
  electricity_unit_price := electricity_unit_price
  prev_water_reading := 0
  curr_water_reading := 0
  water_usage := 0
  water_amount := 0
  electricity_meters := []
  electricity_usage := 0
  electricity_amount := 0
  water_electricity_labor_fee := 0
  garbage_disposal_fee := 0
  meter_reader := none
  meter_date := none
  total_fee := 0
  month := ""

/-- src/lib.rs `MerchantBill::set_shop_code`. -/
def MerchantBill.set_shop_code (b : MerchantBill) (code : String) : MerchantBill :=
  { b with shop_code := code }

/-- src/lib.rs `MerchantBill::set_meter_info`. -/
def MerchantBill.set_meter_info (b : MerchantBill) (reader date : Option String) : MerchantBill :=
  { b with meter_reader := reader, meter_date := date }

/-- src/lib.rs `MerchantBill::update_totals`: total electricity usage is
summed over the meters, the unit price applied once, and the product
rounded to a whole currency unit; the total fee adds the already-rounded
water amount and the two flat fees with no further rounding. -/
def MerchantBill.update_totals (b : MerchantBill) : MerchantBill :=
  let electricity_usage := (b.electricity_meters.map ElectricityMeter.usage).sum
  let electricity_amount := rustRound (electricity_usage * b.electricity_unit_price)
  { b with
      electricity_usage := electricity_usage
      electricity_amount := electricity_amount
      total_fee := b.water_amount + electricity_amount +
        b.water_electricity_labor_fee + b.garbage_disposal_fee }

/-- src/lib.rs `MerchantBill::set_water_readings`. -/
def MerchantBill.set_water_readings (b : MerchantBill) (prev curr : ℚ) : MerchantBill :=
  let water_usage := max (curr - prev) 0
  MerchantBill.update_totals
    { b with
        prev_water_reading := prev
        curr_water_reading := curr
        water_usage := water_usage
        water_amount := rustRound (water_usage * b.water_unit_price) }

/-- src/lib.rs `MerchantBill::add_electricity_meter`. -/
def MerchantBill.add_electricity_meter (b : MerchantBill) (meter_id : String) (prev curr : ℚ) :
    MerchantBill :=
  let usage := max (curr - prev) 0
  let amount := rustRound (usage * b.electricity_unit_price)
  MerchantBill.update_totals
    { b with
        electricity_meters := b.electricity_meters ++
          [{ meter_id := meter_id, prev_reading := prev, curr_reading := curr,
             usage := usage, amount := amount }] }

/-! ## Chinese uppercase currency formatter (src/lib.rs `rmb_upper`) -/

/-- The uppercase digit words of `rmb_upper`. -/
def rmbDigits : List (List Char) := ["零","壹","贰","叁","肆","伍","陆","柒","捌","玖"].map String.data

/-- The positional unit ladder of `rmb_upper`. -/
def rmbUnits : List (List Char) := ["分","角","元","拾","佰","仟","万","拾","佰","仟","亿","拾","佰","仟","万"].map String.data

/-- The digit loop of `rmb_upper`: walks the decimal digits of `num` from
least significant upward while pairing them with the unit ladder, pushing
word segments exactly as the source pushes onto `parts`. -/
def rmbLoop : List (List Char) → Nat → List (List Char) → Bool → List (List Char)
  | [], _, parts, _ => parts
  | unit :: rest, num, parts, last_zero =>
    if num = 0 then parts
    else
      let d := num % 10
      if d = 0 then
        let parts1 :=
          if (unit = "元".data ∨ unit = "万".data ∨ unit = "亿".data) ∧
              ¬ (parts.any (fun p => containsList unit p)) then
            parts ++ [unit]
          else parts
        let parts2 := if ¬ last_zero then parts1 ++ ["零".data] else parts1
        rmbLoop rest (num / 10) parts2 true
      else
        rmbLoop rest (num / 10) (parts ++ [rmbDigits.getD d ("零".data) ++ unit]) false

/-- The fuelled collapse of consecutive `零` (the source's
`while s.contains("零零")` loop; each pass strictly shortens the string,
so `length + 1` units of fuel are enough for the loop to run to
completion). -/
def collapseZerosFuel : Nat → List Char → List Char
  | 0, s => s
  | fuel+1, s =>
    if containsList ("零零".data) s then collapseZerosFuel fuel (replaceAll ("零零".data) ("零".data) s)
    else s

/-- Collapse of consecutive `零`. -/
def collapseZeros (s : List Char) : List Char := collapseZerosFuel (s.length + 1) s

/-- The post-processing tail of `rmb_upper`: reverse and join the parts,
collapse duplicate zeros, strip zeros before major units, drop a trailing
zero, and append `整` when no fractional unit is present. -/
def rmbFinish (parts : List (List Char)) : List Char :=
  let s := (parts.reverse).flatten
  let s := collapseZeros s
  let s := replaceAll ("零亿".data) ("亿".data) s
  let s := replaceAll ("零万".data) ("万".data) s
  let s := replaceAll ("零元".data) ("元".data) s
  let s := if endsWithList ("零".data) s then s.dropLast else s
  if ¬ containsList ("角".data) s ∧ ¬ containsList ("分".data) s then s ++ "整".data else s

/-- `rmb_upper` after the conversion to integer cents.  A non-positive
`cents` enters the branch with `cents.toNat = 0`, so the digit loop never
runs, exactly as the source's `while num > 0` loop. -/
def rmbFromCents (cents : ℤ) : String :=
  if cents = 0 then "零元整"
  else String.mk (rmbFinish (rmbLoop rmbUnits cents.toNat [] false))

/-- src/lib.rs `rmb_upper`: convert to integer cents (round half away from
zero) and render the uppercase amount. -/
def rmb_upper (amount : ℚ) : String := rmbFromCents (rustRoundZ (amount * 100))

/-! ## Numeric cell coercion (src/lib.rs `as_f64` and `parse::<f64>`) -/

/-- Decimal digit test. -/
def isDigitChar (c : Char) : Bool := '0' ≤ c && c ≤ '9'

/-- Value of a digit string, most significant first. -/
def digitsToNat (cs : List Char) : ℕ :=
  cs.foldl (fun acc c => acc * 10 + (c.toNat - '0'.toNat)) 0

/-- Split a character list at the first dot, if any. -/
def splitDot : List Char → (List Char × Option (List Char))
  | [] => ([], none)
  | c :: rest =>
    if c = '.' then ([], some rest)
    else
      let p := splitDot rest
      (c :: p.1, p.2)

/-- Modelled from Rust `str::parse::<f64>` restricted to plain decimal
notation (optional sign, integer digits, optional fractional digits; a
lone dot or stray characters fail).  Scientific notation and the
`inf`/`NaN` spellings accepted by Rust are not modelled; the repository
feeds this parser spreadsheet numbers, for which the two agree. -/
def parseDecimal? (s : String) : Option ℚ :=
  let p0 : ℚ × List Char :=
    match s.data with
    | '-' :: rest => (-1, rest)
    | '+' :: rest => (1, rest)
    | rest => (1, rest)
  let sign := p0.1
  match splitDot p0.2 with
  | (intPart, none) =>
    if intPart ≠ [] ∧ intPart.all isDigitChar then some (sign * (digitsToNat intPart : ℚ))
    else none
  | (intPart, some fracPart) =>
    if (intPart ≠ [] ∨ fracPart ≠ []) ∧ intPart.all isDigitChar ∧ fracPart.all isDigitChar then
      some (sign * ((digitsToNat intPart : ℚ) + (digitsToNat fracPart : ℚ) / (10 : ℚ) ^ fracPart.length))
    else none

/-- Rust `s.trim().parse::<f64>().unwrap_or(0.0)`. -/
def parseOr0 (s : String) : ℚ := (parseDecimal? (trimStr s)).getD 0

/-- The calamine cell values consumed by src/lib.rs (`DataType`); every
variant other than `Float`, `Int` and `String` is coerced to zero by
`as_f64`, so they are collapsed into `Empty`. -/
inductive CellData where
  | Float (f : ℚ)
  | IntC (i : ℤ)
  | Str (s : String)
  | Empty

/-- src/lib.rs `as_f64`. -/
def as_f64 (cell : CellData) : ℚ :=
  match cell with
  | CellData.Float f => f
  | CellData.IntC i => (i : ℚ)
  | CellData.Str s => parseOr0 s
  | CellData.Empty => 0

/-- The calamine `DataType` display used for header labels and name
cells.  The display of a `Float` cell in Rust is the shortest-roundtrip
float notation, which has no exact rational counterpart; it is modelled
by the rational printer.  No claim depends on the text of numeric cells. -/
def CellData.toStr : CellData → String
  | CellData.Float f => toString f
  | CellData.IntC i => toString i
  | CellData.Str s => s
  | CellData.Empty => ""

/-! ## Header resolution (src/lib.rs) -/

/-- src/lib.rs `HeadersMap`.  The source field holding the meter column
label stem is named with a reserved suffix of this development's
environment, hence the shortened name `electricity_pref`. -/
structure HeadersMap where
  merchant : String
  prev_e : String
  curr_e : String
  prev_w : String
  curr_w : String
  w_price : String
  e_price : String
  electricity_price : String
  electricity_pref : String
  water_electricity_labor_fee : String
  garbage_disposal_fee : String

/-- `headers.iter().position(|h| h.contains(pat))`. -/
def positionContains (headers : List String) (pat : String) : Option ℕ :=
  headers.findIdx? (fun h => strContainsStr h pat)

/-- `Option` to `Except` with the source's context message. -/
def orErr {α : Type} (o : Option α) (msg : String) : Except String α :=
  match o with
  | some a => Except.ok a
  | none => Except.error msg

/-- The meter-discovery loop of src/lib.rs `find_electricity_columns`,
with explicit fuel.  The source loop stops at the first meter number
whose column pair is absent; distinct meter numbers that do match must
occupy distinct starting positions inside the finite header text, so the
total header length bounds the number of successful iterations and
`(total length) + 1` units of fuel always let the loop reach its `break`. -/
def findElecAux (headers_norm : List String) (pref : String) :
    ℕ → ℕ → List (ℕ × ℕ) → List (ℕ × ℕ)
  | 0, _, acc => acc
  | fuel+1, meter_id, acc =>
    let prev_pattern := pref ++ toString meter_id ++ "上期读数"
    let curr_pattern := pref ++ toString meter_id ++ "本期读数"
    let prev_idx := headers_norm.findIdx? (fun h => strContainsStr h (normalizeLabel prev_pattern))
    let curr_idx := headers_norm.findIdx? (fun h => strContainsStr h (normalizeLabel curr_pattern))
    match prev_idx, curr_idx with
    | some p, some c => findElecAux headers_norm pref fuel (meter_id + 1) (acc ++ [(p, c)])
    | _, _ => acc

/-- src/lib.rs `find_electricity_columns` (the quotes of the source's
error message are dropped; no claim concerns that text). -/
def find_electricity_columns (headers : List String) (pref : String) :
    Except String (List (ℕ × ℕ)) :=
  let headers_norm := headers.map normalizeLabel
  let columns := findElecAux headers_norm pref ((headers.map String.length).sum + 1) 1 []
  if columns.isEmpty then
    Except.error ("未找到任何电表列，请确保CSV包含电表X上期读数和电表X本期读数列")
  else Except.ok columns

/-! ## Row parsing (src/lib.rs `read_csv_file` / `read_excel_file`) -/

/-- The per-row meter loop shared by `read_csv_file` and
`read_excel_file`: enumerate the discovered column pairs and add an
electricity meter only when at least one of the two readings is positive
(`meter_id` counts every column pair, skipped or not). -/
def addMetersFromRowAux (b : MerchantBill) (meter_id : ℕ) : List (ℚ × ℚ) → MerchantBill
  | [] => b
  | pr :: rest =>
    let b2 :=
      if 0 < pr.1 ∨ 0 < pr.2 then b.add_electricity_meter (toString (meter_id + 1)) pr.1 pr.2
      else b
    addMetersFromRowAux b2 (meter_id + 1) rest

/-- The per-row meter loop, started at the first column pair. -/
def addMetersFromRow (b : MerchantBill) (pairs : List (ℚ × ℚ)) : MerchantBill :=
  addMetersFromRowAux b 0 pairs

/-- src/lib.rs `read_csv_file`, modelled on the list of text lines of the
file (the `File::open`/`BufReader` plumbing and debug printing are I/O). -/
def read_csv_lines (lines : List String) (headers_map : HeadersMap) :
    Except String (List MerchantBill) := do
  match lines with
  | [] => Except.error ("CSV中缺少表头行")
  | header_line :: rest =>
    let headers := (splitComma header_line).map trimStr
    let code_i ← orErr (positionContains headers ("铺面编号")) ("找不到铺面编号列")
    let m_i ← orErr (positionContains headers ("店铺名称")) ("找不到店铺名称列")
    let e1p_i ← orErr (positionContains headers ("电表1上期读数")) ("找不到电表1上期读数列")
    let e1c_i ← orErr (positionContains headers ("电表1本期读数")) ("找不到电表1本期读数列")
    let wp_i ← orErr (positionContains headers ("上期水表读数")) ("找不到上期水表读数列")
    let wc_i ← orErr (positionContains headers ("本期水表读数")) ("找不到本期水表读数列")
    let wprice_i ← orErr (positionContains headers ("水费单价")) ("找不到水费单价列")
    let eprice_i ← orErr (positionContains headers ("电费单价")) ("找不到电费单价列")
    let labor_fee_i ← orErr (positionContains headers ("水电人工费")) ("找不到水电人工费列")
    let garbage_fee_i ← orErr (positionContains headers ("垃圾处理费")) ("找不到垃圾处理费列")
    let ecols0 ← find_electricity_columns headers (HeadersMap.electricity_pref headers_map)
    let electricity_columns :=
      if ecols0.any (fun pc => pc.1 = e1p_i && pc.2 = e1c_i) then ecols0
      else (e1p_i, e1c_i) :: ecols0
    Except.ok (rest.foldl (fun bills line =>
      if (trimStr line).isEmpty then bills
      else
        let parts := splitComma line
        if parts.length < 5 then bills
        else
          let get := fun (i : ℕ) => parts.getD i ("")
          let merchant_name := trimStr (get m_i)
          let shop_code := trimStr (get code_i)
          if merchant_name.isEmpty then bills
          else
            let water_price := parseOr0 (get wprice_i)
            let electricity_price := parseOr0 (get eprice_i)
            let prev_water := parseOr0 (get wp_i)
            let curr_water := parseOr0 (get wc_i)
            let bill := MerchantBill.new merchant_name water_price electricity_price
            let bill := bill.set_water_readings prev_water curr_water
            let bill := bill.set_shop_code shop_code
            let bill := addMetersFromRow bill
              (electricity_columns.map (fun pc => (parseOr0 (get pc.1), parseOr0 (get pc.2))))
            let bill := { bill with
              water_electricity_labor_fee := parseOr0 (get labor_fee_i)
              garbage_disposal_fee := parseOr0 (get garbage_fee_i) }
            bills ++ [bill.update_totals]) [])

/-- src/lib.rs `read_excel_file`, modelled on the list of cell rows of
the first worksheet (workbook plumbing and debug printing are I/O). -/
def read_excel_rows (rows : List (List CellData)) (headers_map : HeadersMap) :
    Except String (List MerchantBill) := do
  match rows with
  | [] => Except.error ("Excel中缺少表头行")
  | header_row :: rest =>
    let headers := header_row.map CellData.toStr
    let code_i ← orErr (positionContains headers ("铺面编号")) ("找不到铺面编号列")
    let m_i ← orErr (positionContains headers ("店铺名称")) ("找不到店铺名称列")
    let e1p_i ← orErr (positionContains headers ("电表1上期读数")) ("找不到电表1上期读数列")
    let e1c_i ← orErr (positionContains headers ("电表1本期读数")) ("找不到电表1本期读数列")
    let wp_i ← orErr (positionContains headers ("上期水表读数")) ("找不到上期水表读数列")
    let wc_i ← orErr (positionContains headers ("本期水表读数")) ("找不到本期水表读数列")
    let wprice_i ← orErr (positionContains headers ("水费单价")) ("找不到水费单价列")
    let eprice_i ← orErr (positionContains headers ("电费单价")) ("找不到电费单价列")
    let labor_fee_i ← orErr (positionContains headers ("水电人工费")) ("找不到水电人工费列")
    let garbage_fee_i ← orErr (positionContains headers ("垃圾处理费")) ("找不到垃圾处理费列")
    let ecols0 ← find_electricity_columns headers (HeadersMap.electricity_pref headers_map)
    let electricity_columns :=
      if ecols0.any (fun pc => pc.1 = e1p_i && pc.2 = e1c_i) then ecols0
      else (e1p_i, e1c_i) :: ecols0
    Except.ok (rest.foldl (fun bills row =>
      if row.isEmpty then bills
      else
        let merchant_name := CellData.toStr (row.getD m_i CellData.Empty)
        let shop_code := CellData.toStr (row.getD code_i CellData.Empty)
        if (trimStr merchant_name).isEmpty then bills
        else
          let water_price := as_f64 (row.getD wprice_i CellData.Empty)
          let electricity_price := as_f64 (row.getD eprice_i CellData.Empty)
          let prev_water := as_f64 (row.getD wp_i CellData.Empty)
          let curr_water := as_f64 (row.getD wc_i CellData.Empty)
          let bill := MerchantBill.new merchant_name water_price electricity_price
          let bill := bill.set_water_readings prev_water curr_water
          let bill := bill.set_shop_code shop_code
          let bill := addMetersFromRow bill
            (electricity_columns.map (fun pc =>
              (as_f64 (row.getD pc.1 CellData.Empty), as_f64 (row.getD pc.2 CellData.Empty))))
          let bill := { bill with
            water_electricity_labor_fee := as_f64 (row.getD labor_fee_i CellData.Empty)
            garbage_disposal_fee := as_f64 (row.getD garbage_fee_i CellData.Empty) }
          bills ++ [bill.update_totals]) [])

/-! ## Document assembly (src/lib.rs `generate_word_document_with_template`) -/

/-- src/lib.rs `GenerateOptions`. -/
structure GenerateOptions where
  custom_title : Option String
  per_page : ℕ

/-- An element of the assembled docx body.  Paragraph text is kept
verbatim; a fee table or the summary table is recorded together with the
data it renders (its cell strings and vertical merges are presentational
formatting of exactly that data). -/
inductive DocElem where
  | para (text : String)
  | breakPage
  | noticeTable (bill : MerchantBill)
  | summaryTable (merchants : List MerchantBill)

/-- Two-digit zero padding, as the `{:02}` format of the source. -/
def pad2 (n : ℕ) : String := if n < 10 then "0" ++ toString n else toString n

/-- The default notice title built from the wall clock. -/
def defaultTitle (year month : ℕ) : String :=
  toString year ++ "年" ++ pad2 month ++ "月抄表计费通知单"

/-- The title of every notice: the custom title when one is configured,
else the default. -/
def titleOf (options : Option GenerateOptions) (year month : ℕ) : String :=
  (options.bind GenerateOptions.custom_title).getD (defaultTitle year month)

/-- The identification line of a notice. -/
def infoLine (bill : MerchantBill) (year month day : ℕ) : String :=
  let meter_reader := bill.meter_reader.getD ("")
  let meter_date := bill.meter_date.getD
    (toString year ++ "年" ++ pad2 month ++ "月" ++ pad2 day ++ "日")
  "编号：\t" ++ bill.shop_code ++ "\t姓名\t" ++ bill.merchant_name ++
    "\t抄表人：\t" ++ meter_reader ++ "\t抄表日期：" ++ meter_date

/-- The fixed disclaimer paragraph of every notice. -/
def noticeDisclaimer : String :=
  "1、此单可对账不做凭证；\n\n2、每月5日前为收费时间，超期按5%收滞纳金或停电；\n\n3、以上费用如有不明或差\n请到管理处核对。"

/-- The separator line emitted between consecutive notices. -/
def separatorLine : String := String.mk (List.replicate 40 '=')

/-- One merchant's notice: title, identification line, blank line, the
fee table, blank line, disclaimer. -/
def merchantSection (bill : MerchantBill) (title : String) (year month day : ℕ) : List DocElem :=
  [DocElem.para title, DocElem.para (infoLine bill year month day), DocElem.para (""),
   DocElem.noticeTable bill, DocElem.para (""), DocElem.para noticeDisclaimer]

/-- The elements emitted after one notice: for every record but the last,
a separator line, then a page break when `per_page` is non-zero and
divides the number of records emitted so far. -/
def sectionBreak (index total per_page : ℕ) : List DocElem :=
  if index < total - 1 then
    DocElem.para separatorLine ::
      (if per_page ≠ 0 ∧ (index + 1) % per_page = 0 then [DocElem.breakPage] else [])
  else []

/-- src/lib.rs `generate_word_document_with_template`: build the notice
body, then the forced page break, then the summary table with its title
(src/lib.rs `add_summary_table`).  The byte packing of the docx tree
cannot fail, so the function succeeds on every input, the empty record
list included. -/
def generate_word_document_with_template (merchants : List MerchantBill)
    (options : Option GenerateOptions) (year month day : ℕ) : Except String (List DocElem) :=
  let per_page := (options.map GenerateOptions.per_page).getD 1
  let body := ((merchants.enum).map (fun ib =>
    merchantSection ib.2 (titleOf options year month) year month day ++
      sectionBreak ib.1 merchants.length per_page)).flatten
  Except.ok (body ++
    [DocElem.breakPage, DocElem.para ("费用汇总表"), DocElem.summaryTable merchants])

/-- src/server.rs `process_file_to_docx`, lines 176-191: the caller of the
assembler fails hard when the parsed bill list is empty, before any
document is generated (file parsing and the meter-reader stamping are
upstream of this guard and elided). -/
def process_file_to_docx (bills : List MerchantBill) (options : Option GenerateOptions)
    (year month day : ℕ) : Except String (List DocElem) :=
  if bills.isEmpty then Except.error ("文件中没有有效数据")
  else generate_word_document_with_template bills options year month day

/-- Page-break recogniser for counting. -/
def DocElem.isPageBreak : DocElem → Bool
  | DocElem.breakPage => true
  | _ => false

/-- Number of page-break elements in a document fragment. -/
def pageBreakCount (doc : List DocElem) : ℕ := (doc.filter DocElem.isPageBreak).length

/-! ## Shared lemmas -/

/-- `update_totals` recomputes derived fields only; the meter list is
untouched. -/
theorem update_totals_meters (b : MerchantBill) :
    (MerchantBill.update_totals b).electricity_meters = b.electricity_meters := rfl

/-- `add_electricity_meter` appends exactly one meter, built from the
clamped usage and the display rounding. -/
theorem add_meter_meters (b : MerchantBill) (id : String) (p c : ℚ) :
    (b.add_electricity_meter id p c).electricity_meters =
      b.electricity_meters ++
        [{ meter_id := id, prev_reading := p, curr_reading := c,
           usage := max (c - p) 0,
           amount := rustRound ((max (c - p) 0) * b.electricity_unit_price) }] := rfl

/-- `add_electricity_meter` never changes the unit price. -/
theorem add_meter_price (b : MerchantBill) (id : String) (p c : ℚ) :
    (b.add_electricity_meter id p c).electricity_unit_price = b.electricity_unit_price := rfl

/-- The bill misused by claim C1's divergence example: price 0.4, two
meters of usage 1 each. -/
def c1ExampleBill : MerchantBill :=
  ((MerchantBill.new ("甲") 0 (2/5)).add_electricity_meter ("1") 0 1).add_electricity_meter ("2") 0 1

/-- C1: after `update_totals` the electricity amount is
`round((Σ usages) × unit price)` — usages summed first, the unit price
applied once, then rounded — and on the two-meter bill with usages 1, 1
and price 0.4 this gives 1 while the sum of the already-rounded per-meter
amounts gives 0, so the two computations differ. -/
theorem c1_electricity_amount_rounding :
    (∀ b : MerchantBill,
      (MerchantBill.update_totals b).electricity_amount =
        rustRound ((b.electricity_meters.map ElectricityMeter.usage).sum *
          b.electricity_unit_price)) ∧
    c1ExampleBill.electricity_amount = 1 ∧
    (c1ExampleBill.electricity_meters.map ElectricityMeter.amount).sum = 0 ∧
    c1ExampleBill.electricity_amount ≠
      (c1ExampleBill.electricity_meters.map ElectricityMeter.amount).sum := by
  have h1 : c1ExampleBill.electricity_amount = 1 := by
    show rustRound ((max ((1 : ℚ) - 0) 0 + (max ((1 : ℚ) - 0) 0 + 0)) * (2/5)) = 1
    norm_num [max_def, rustRound, rustRoundZ]
  have h2 : (c1ExampleBill.electricity_meters.map ElectricityMeter.amount).sum = 0 := by
    show rustRound ((max ((1 : ℚ) - 0) 0) * (2/5)) + (rustRound ((max ((1 : ℚ) - 0) 0) * (2/5)) + 0) = 0
    norm_num [max_def, rustRound, rustRoundZ]
  exact ⟨fun b => rfl, h1, h2, by rw [h1, h2]; norm_num⟩

/-- C5: both for the water readings and for every added electricity
meter, the stored usage is `max(curr - prev, 0)`, hence never negative,
also when the current reading is below the previous one. -/
theorem c5_usage_clamped_nonnegative (b : MerchantBill) (id : String) (prev curr : ℚ) :
    (b.set_water_readings prev curr).water_usage = max (curr - prev) 0 ∧
    0 ≤ (b.set_water_readings prev curr).water_usage ∧
    (b.add_electricity_meter id prev curr).electricity_meters =
      b.electricity_meters ++
        [{ meter_id := id, prev_reading := prev, curr_reading := curr,
           usage := max (curr - prev) 0,
           amount := rustRound ((max (curr - prev) 0) * b.electricity_unit_price) }] ∧
    (0 : ℚ) ≤ max (curr - prev) 0 :=
  ⟨rfl, le_max_right _ _, rfl, le_max_right _ _⟩

/-- C4: the pinned reference values of the Chinese uppercase currency
formatter, byte for byte. -/
theorem c4_rmb_reference_values :
    rmb_upper 0 = "零元整" ∧ rmb_upper 1 = "壹元整" ∧
    rmb_upper (100.5 : ℚ) = "壹佰元伍角" ∧ rmb_upper 10000 = "壹万元整" := by
  refine ⟨?_, ?_, ?_, ?_⟩
  · have h : rustRoundZ ((0 : ℚ) * 100) = 0 := by norm_num [rustRoundZ]
    unfold rmb_upper; rw [h]; decide
  · have h : rustRoundZ ((1 : ℚ) * 100) = 100 := by norm_num [rustRoundZ]
    unfold rmb_upper; rw [h]; decide
  · have h : rustRoundZ ((100.5 : ℚ) * 100) = 10050 := by norm_num [rustRoundZ]
    unfold rmb_upper; rw [h]; decide
  · have h : rustRoundZ ((10000 : ℚ) * 100) = 1000000 := by norm_num [rustRoundZ]
    unfold rmb_upper; rw [h]; decide

/-- C10: any amount whose cent value rounds negative makes the digit loop
vacuous (`while num > 0` is entered with a negative `num`), so the
formatter returns the bare string `整` rather than failing or producing
`零元整`. -/
theorem c10_negative_cents_formats_zheng (q : ℚ) (h : rustRoundZ (q * 100) < 0) :
    rmb_upper q = "整" := by
  unfold rmb_upper rmbFromCents
  rw [if_neg (by omega : ¬ rustRoundZ (q * 100) = 0), Int.toNat_of_nonpos h.le]
  decide

/-- Witness for C10 at the concrete amount −1. -/
theorem c10_negative_cents_witness :
    rustRoundZ ((-1 : ℚ) * 100) < 0 ∧ rmb_upper (-1) = "整" :=
  ⟨by norm_num [rustRoundZ], c10_negative_cents_formats_zheng (-1) (by norm_num [rustRoundZ])⟩

/-- `Except` success recogniser. -/
def exceptIsOk {ε α : Type} : Except ε α → Bool
  | Except.ok _ => true
  | Except.error _ => false

/-- C3 counterexample: on zero billing records the Document Assembler
does not fail — it succeeds and returns a non-empty document (the forced
page break, the summary title and the empty summary table). -/
theorem c3_counterexample_empty_input_succeeds :
    exceptIsOk (generate_word_document_with_template [] none 2025 1 1) = true ∧
    generate_word_document_with_template [] none 2025 1 1 =
      Except.ok [DocElem.breakPage, DocElem.para ("费用汇总表"), DocElem.summaryTable []] :=
  ⟨rfl, rfl⟩

/-- C3 amended: the assembler itself succeeds on an empty record list
(producing only the forced break and the summary table); the zero-records
hard stop is enforced by its caller `process_file_to_docx`, which fails
before invoking the assembler. -/
theorem c3_amended_empty_records (options : Option GenerateOptions) (year month day : ℕ) :
    generate_word_document_with_template [] options year month day =
      Except.ok [DocElem.breakPage, DocElem.para ("费用汇总表"), DocElem.summaryTable []] ∧
    process_file_to_docx [] options year month day = Except.error ("文件中没有有效数据") :=
  ⟨rfl, rfl⟩

/-- C8: after `update_totals` the total fee is exactly
`water_amount + electricity_amount + labor_fee + garbage_fee` with no
further rounding, and it is a function of the water amount, the meter
usages, the unit price and the two flat fees alone — two bills that agree
on those but differ in the stored per-meter display amounts have the same
total fee. -/
theorem c8_total_fee_formula (b b2 : MerchantBill)
    (hw : b.water_amount = b2.water_amount)
    (hp : b.electricity_unit_price = b2.electricity_unit_price)
    (hu : b.electricity_meters.map ElectricityMeter.usage =
      b2.electricity_meters.map ElectricityMeter.usage)
    (hl : b.water_electricity_labor_fee = b2.water_electricity_labor_fee)
    (hg : b.garbage_disposal_fee = b2.garbage_disposal_fee) :
    (MerchantBill.update_totals b).total_fee =
      b.water_amount +
        rustRound ((b.electricity_meters.map ElectricityMeter.usage).sum *
          b.electricity_unit_price) +
        b.water_electricity_labor_fee + b.garbage_disposal_fee ∧
    (MerchantBill.update_totals b).total_fee = (MerchantBill.update_totals b2).total_fee := by
  have h1 : (MerchantBill.update_totals b).total_fee =
      b.water_amount +
        rustRound ((b.electricity_meters.map ElectricityMeter.usage).sum *
          b.electricity_unit_price) +
        b.water_electricity_labor_fee + b.garbage_disposal_fee := rfl
  have h2 : (MerchantBill.update_totals b2).total_fee =
      b2.water_amount +
        rustRound ((b2.electricity_meters.map ElectricityMeter.usage).sum *
          b2.electricity_unit_price) +
        b2.water_electricity_labor_fee + b2.garbage_disposal_fee := rfl
  exact ⟨h1, by rw [h1, h2, hw, hp, hu, hl, hg]⟩

/-- First bill of the C8 witness: one meter, display amount 2. -/
def c8WitnessBillA : MerchantBill :=
  { MerchantBill.new ("甲") 1 (1/2) with
    water_amount := 7
    water_electricity_labor_fee := 3
    garbage_disposal_fee := 4
    electricity_meters :=
      [{ meter_id := "1", prev_reading := 0, curr_reading := 3, usage := 3, amount := 2 }] }

/-- Second bill of the C8 witness: identical except for the stored
per-meter display amount. -/
def c8WitnessBillB : MerchantBill :=
  { MerchantBill.new ("甲") 1 (1/2) with
    water_amount := 7
    water_electricity_labor_fee := 3
    garbage_disposal_fee := 4
    electricity_meters :=
      [{ meter_id := "1", prev_reading := 0, curr_reading := 3, usage := 3, amount := 999 }] }

/-- Witness for C8: the two bills differ only in the per-meter display
amount and get the same total fee. -/
theorem c8_total_fee_witness :
    (MerchantBill.update_totals c8WitnessBillA).total_fee =
      (MerchantBill.update_totals c8WitnessBillB).total_fee :=
  (c8_total_fee_formula c8WitnessBillA c8WitnessBillB rfl rfl rfl rfl rfl).2

/-- Characterisation of the per-row meter loop, for any start index: the
meters appended are exactly those of the column pairs with a positive
reading on at least one side, numbered by their position among all pairs. -/
theorem addMetersFromRowAux_meters (pairs : List (ℚ × ℚ)) : ∀ (n : ℕ) (b : MerchantBill),
    (addMetersFromRowAux b n pairs).electricity_meters =
      b.electricity_meters ++
        ((pairs.enumFrom n).filter (fun x => decide (0 < x.2.1 ∨ 0 < x.2.2))).map
          (fun x =>
            { meter_id := toString (x.1 + 1), prev_reading := x.2.1, curr_reading := x.2.2,
              usage := max (x.2.2 - x.2.1) 0,
              amount := rustRound ((max (x.2.2 - x.2.1) 0) * b.electricity_unit_price) }) := by
  induction pairs with
  | nil => intro n b; simp [addMetersFromRowAux, List.enumFrom]
  | cons pr rest ih =>
    intro n b
    show (addMetersFromRowAux
        (if 0 < pr.1 ∨ 0 < pr.2 then b.add_electricity_meter (toString (n + 1)) pr.1 pr.2 else b)
        (n + 1) rest).electricity_meters = _
    by_cases h : 0 < pr.1 ∨ 0 < pr.2
    · rw [if_pos h, ih (n + 1) (b.add_electricity_meter (toString (n + 1)) pr.1 pr.2),
        add_meter_meters, add_meter_price]
      simp [List.enumFrom, List.filter_cons, h]
    · rw [if_neg h, ih (n + 1) b]
      simp [List.enumFrom, List.filter_cons, h]

/-- C6: a discovered meter column pair contributes a meter to the record
only when at least one of its readings is positive — the appended meters
are exactly the positively-read pairs — and in particular a single
all-zero pair leaves the bill untouched. -/
theorem c6_zero_meter_pair_omitted :
    (∀ (b : MerchantBill) (pairs : List (ℚ × ℚ)),
      (addMetersFromRow b pairs).electricity_meters =
        b.electricity_meters ++
          ((pairs.enum.filter (fun x => decide (0 < x.2.1 ∨ 0 < x.2.2))).map
            (fun x =>
              { meter_id := toString (x.1 + 1), prev_reading := x.2.1, curr_reading := x.2.2,
                usage := max (x.2.2 - x.2.1) 0,
                amount := rustRound ((max (x.2.2 - x.2.1) 0) * b.electricity_unit_price) }))) ∧
    (∀ b : MerchantBill, addMetersFromRow b [((0 : ℚ), (0 : ℚ))] = b) := by
  constructor
  · intro b pairs
    exact addMetersFromRowAux_meters pairs 0 b
  · intro b
    show addMetersFromRowAux b 0 [((0 : ℚ), (0 : ℚ))] = b
    simp [addMetersFromRowAux]

/-- C9: the readers consult nothing of the `HeadersMap` except the meter
column label stem: two maps that agree on it give identical results on
every CSV line list and every spreadsheet row list (all other columns are
located by hard-coded Chinese label substrings). -/
theorem c9_headers_map_independence (hm1 hm2 : HeadersMap)
    (h : HeadersMap.electricity_pref hm1 = HeadersMap.electricity_pref hm2)
    (lines : List String) (rows : List (List CellData)) :
    read_csv_lines lines hm1 = read_csv_lines lines hm2 ∧
    read_excel_rows rows hm1 = read_excel_rows rows hm2 := by
  constructor
  · delta read_csv_lines
    simp only [h]
  · delta read_excel_rows
    simp only [h]

/-- First headers map of the C9 witness. -/
def c9HeadersMapA : HeadersMap :=
  ⟨"店铺名称", "a", "b", "c", "d", "e", "f", "g", "电表", "h", "i"⟩

/-- Second headers map of the C9 witness: every field differs from the
first map except the meter column label stem. -/
def c9HeadersMapB : HeadersMap :=
  ⟨"名称", "", "", "", "", "", "", "", "电表", "", ""⟩

/-- Witness for C9 on concrete inputs. -/
theorem c9_headers_map_witness :
    read_csv_lines [] c9HeadersMapA = read_csv_lines [] c9HeadersMapB ∧
    read_excel_rows [] c9HeadersMapA = read_excel_rows [] c9HeadersMapB :=
  c9_headers_map_independence c9HeadersMapA c9HeadersMapB rfl [] []

/-- A CSV header row whose merchant-name label carries only leading and
trailing whitespace. -/
def c2GoodHeaderLine : String :=
  "铺面编号, 店铺名称 ,电表1上期读数,电表1本期读数,上期水表读数,本期水表读数,水费单价,电费单价,水电人工费,垃圾处理费"

/-- The spec's example header row: the merchant-name label carries
internal whitespace (` 店铺 名称 `). -/
def c2BadHeaderLine : String :=
  "铺面编号, 店铺 名称 ,电表1上期读数,电表1本期读数,上期水表读数,本期水表读数,水费单价,电费单价,水电人工费,垃圾处理费"

/-- The headers map used by the C2 instances (matching the one built in
src/server.rs). -/
def c2HeadersMap : HeadersMap :=
  ⟨"店铺名称", "", "", "", "", "", "", "", "电表", "水电人工费", "垃圾处理费"⟩

/-- C2 counterexample: the header ` 店铺 名称 ` of the spec's example does
NOT resolve to the merchant-name column — required-column lookup matches
the raw substring `店铺名称` against the end-trimmed header, internal
whitespace survives, and the reader aborts with the missing-column error. -/
theorem c2_counterexample_internal_space_header :
    read_csv_lines [c2BadHeaderLine] c2HeadersMap = Except.error ("找不到店铺名称列") := rfl

/-- C2 amended: CSV required-column resolution trims each comma-separated
header label at parse time and matches a logical field when the trimmed
header contains the exact candidate substring (no case folding, no
internal-whitespace normalisation): a header ` 店铺名称 ` with only
edge whitespace resolves and the file parses, while the spec's
` 店铺 名称 ` with internal whitespace fails with the missing-column
error. -/
theorem c2_amended_required_column_matching :
    read_csv_lines [c2GoodHeaderLine] c2HeadersMap = Except.ok [] ∧
    read_csv_lines [c2BadHeaderLine] c2HeadersMap = Except.error ("找不到店铺名称列") :=
  ⟨rfl, rfl⟩

/-- Page-break counting distributes over appending. -/
theorem pageBreakCount_append (l1 l2 : List DocElem) :
    pageBreakCount (l1 ++ l2) = pageBreakCount l1 + pageBreakCount l2 := by
  simp [pageBreakCount, List.filter_append]

/-- A merchant's notice contains no page break of its own. -/
theorem pageBreakCount_merchantSection (b : MerchantBill) (t : String) (y m d : ℕ) :
    pageBreakCount (merchantSection b t y m d) = 0 := rfl

/-- The elements after one notice contain exactly one page break when the
record is not the last one and the pagination condition fires, else none. -/
theorem pageBreakCount_sectionBreak (i n p : ℕ) :
    pageBreakCount (sectionBreak i n p) =
      if i < n - 1 ∧ p ≠ 0 ∧ (i + 1) % p = 0 then 1 else 0 := by
  unfold sectionBreak
  by_cases h1 : i < n - 1
  · rw [if_pos h1]
    by_cases h2 : p ≠ 0 ∧ (i + 1) % p = 0
    · rw [if_pos h2, if_pos ⟨h1, h2⟩]; rfl
    · rw [if_neg h2, if_neg (fun hh => h2 ⟨hh.2.1, hh.2.2⟩)]; rfl
  · rw [if_neg h1, if_neg (fun hh => h1 hh.1)]; rfl

/-- Page-break counting distributes over flattening. -/
theorem pageBreakCount_flatten (L : List (List DocElem)) :
    pageBreakCount L.flatten = (L.map pageBreakCount).sum := by
  induction L with
  | nil => rfl
  | cons x xs ih => simp [pageBreakCount_append, ih]

/-- C7: the assembled document is the notice body followed by the forced
page break and the summary table; with `per_page = 2` over 5 records the
body holds exactly 2 internal page breaks (after the 2nd and 4th notice),
and with `per_page = 0` the body never paginates between records. -/
theorem c7_page_break_layout :
    (∀ (b1 b2 b3 b4 b5 : MerchantBill) (t : Option String) (y m d : ℕ),
      ∃ body,
        generate_word_document_with_template [b1, b2, b3, b4, b5]
            (some { custom_title := t, per_page := 2 }) y m d =
          Except.ok (body ++ [DocElem.breakPage, DocElem.para ("费用汇总表"),
            DocElem.summaryTable [b1, b2, b3, b4, b5]]) ∧
        pageBreakCount body = 2) ∧
    (∀ (ms : List MerchantBill) (t : Option String) (y m d : ℕ),
      ∃ body,
        generate_word_document_with_template ms (some { custom_title := t, per_page := 0 }) y m d =
          Except.ok (body ++ [DocElem.breakPage, DocElem.para ("费用汇总表"),
            DocElem.summaryTable ms]) ∧
        pageBreakCount body = 0) := by
  constructor
  · intro b1 b2 b3 b4 b5 t y m d
    refine ⟨_, rfl, ?_⟩
    simp [List.enum, List.enumFrom, pageBreakCount_flatten, pageBreakCount_append,
      pageBreakCount_merchantSection, pageBreakCount_sectionBreak]
  · intro ms t y m d
    refine ⟨_, rfl, ?_⟩
    rw [pageBreakCount_flatten]
    apply List.sum_eq_zero
    intro x hx
    obtain ⟨a, ha, hfa⟩ := List.mem_map.mp hx
    obtain ⟨ib, hib, hfb⟩ := List.mem_map.mp ha
    rw [← hfa, ← hfb, pageBreakCount_append, pageBreakCount_merchantSection,
      pageBreakCount_sectionBreak]
    simp
